import Mathlib

/-! Verification of the session/authentication coordinator of the
event-management dashboard: the auth context (login, logout, the reactive
identity-change handler, profile creation and merge) and the route guard.
Definitions are shallow embeddings of the TypeScript source; theorems settle
the specification's claims about them. -/

namespace EventoCatolico

/-- Roles of the application: the closed set used by the route table and the
user screens. -/
inductive Role where
  | admin
  | organizador
  | usuario
  deriving DecidableEq, Repr

/-- The application user record, the shape built by `createUserDocument`:
id, email, name, role, phone, location, createdAt, status, password. -/
structure User where
  id : String
  email : String
  name : String
  role : Role
  phone : String
  location : String
  createdAt : String
  status : String
  password : String
  deriving DecidableEq, Repr

/-- The identity-provider principal as the coordinator reads it: subject id
(`uid`), non-null email (the code asserts non-null), and an optional display
name. -/
structure FirebaseUser where
  uid : String
  email : String
  displayName : Option String
  deriving DecidableEq, Repr

/-- Models the JS expression `firebaseUser.displayName || 'Usuário'`: both a
null and an empty (falsy) display name fall back to the localized default. -/
def displayNameOrDefault : Option String → String
  | none => "Usuário"
  | some s => if s = "" then "Usuário" else s

/-- A document stored in (or read from) the `users` collection. Every field is
optional because a JS object may omit any of them; `none` models an absent
(undefined) property. -/
structure ProfileRecord where
  id : Option String
  email : Option String
  name : Option String
  role : Option Role
  phone : Option String
  location : Option String
  createdAt : Option String
  status : Option String
  password : Option String
  deriving DecidableEq, Repr

/-- A fully-populated record, as produced by writing a `User` object. -/
def toRecord (u : User) : ProfileRecord :=
  { id := some u.id, email := some u.email, name := some u.name,
    role := some u.role, phone := some u.phone, location := some u.location,
    createdAt := some u.createdAt, status := some u.status,
    password := some u.password }

/-- JS property precedence: a later (present) property overrides an earlier
one; an absent property leaves the earlier value. -/
def pick {α : Type} (later earlier : Option α) : Option α :=
  match later with
  | some x => some x
  | none => earlier

/-- The object the coordinator publishes for an existing document, which in the
source is the spread
`setUser(Object.assign(id: uid, email: fbEmail, with userDoc.data() spread last))`:
every field present in the stored document — id and email included — overrides
the provider-sourced value, because the spread comes last. -/
def spreadUser (uid email : String) (d : ProfileRecord) : ProfileRecord :=
  { id := pick d.id (some uid), email := pick d.email (some email),
    name := d.name, role := d.role, phone := d.phone, location := d.location,
    createdAt := d.createdAt, status := d.status, password := d.password }

/-- Firestore `setDoc` with merge semantics: fields present in the new record
override; fields absent in the new record keep the stored value. -/
def mergeRecord (old new : ProfileRecord) : ProfileRecord :=
  { id := pick new.id old.id, email := pick new.email old.email,
    name := pick new.name old.name, role := pick new.role old.role,
    phone := pick new.phone old.phone, location := pick new.location old.location,
    createdAt := pick new.createdAt old.createdAt,
    status := pick new.status old.status,
    password := pick new.password old.password }

/-- The `users` collection: documents keyed by principal id. -/
abbrev Store := List (String × ProfileRecord)

/-- Document lookup by key (`getDoc` on `doc(db, 'users', uid)`). -/
def lookupDoc : Store → String → Option ProfileRecord
  | [], _ => none
  | (k, v) :: rest, key => if k = key then some v else lookupDoc rest key

/-- Keyed write with upsert semantics (`setDoc` with merge): replaces the
record under an existing key, appends otherwise. -/
def upsert : Store → String → ProfileRecord → Store
  | [], k, v => [(k, v)]
  | (k', v') :: rest, k, v =>
    if k' = k then (k, mergeRecord v' v) :: rest
    else (k', v') :: upsert rest k v

/-- Number of records stored under a key. -/
def countKey (s : Store) (k : String) : Nat :=
  (s.filter (fun e => e.1 = k)).length

/-- A thrown JS error, as the coordinator discriminates them: either it has a
`code` property (provider / store errors) or it is a plain error carrying only
a message. -/
inductive JsError where
  | coded (code : String) (msg : String)
  | plain (msg : String)
  deriving DecidableEq, Repr

/-- Translation of provider error codes to localized user-facing messages
(`getErrorMessage` in the source); unknown codes get the generic
retry-suggesting message. -/
def getErrorMessage (code : String) : String :=
  if code = "auth/invalid-email" then "Email inválido"
  else if code = "auth/user-disabled" then "Usuário desativado"
  else if code = "auth/user-not-found" then "Usuário não encontrado"
  else if code = "auth/wrong-password" then "Senha incorreta"
  else if code = "auth/too-many-requests" then "Muitas tentativas. Tente novamente mais tarde"
  else if code = "auth/network-request-failed" then "Erro de conexão. Verifique sua internet"
  else if code = "auth/internal-error" then "Erro interno. Tente novamente"
  else "Erro ao fazer login. Tente novamente"

/-- The coordinator's mutable state: the `user` and `isLoading` pieces kept in
React state by `AuthProvider`. -/
structure AuthState where
  user : Option ProfileRecord
  isLoading : Bool
  deriving DecidableEq, Repr

/-- The value `AuthProvider` publishes to consumers: `isAuthenticated` is
derived at publication time as the truthiness of `user`. -/
structure SessionState where
  user : Option ProfileRecord
  isAuthenticated : Bool
  isLoading : Bool
  deriving DecidableEq, Repr

/-- Publication of the coordinator state (construction of the context value):
`isAuthenticated` equals the truthiness of `user`. -/
def publish (s : AuthState) : SessionState :=
  { user := s.user, isAuthenticated := s.user.isSome, isLoading := s.isLoading }

/-- Initial coordinator state: no user, loading. -/
def initState : AuthState := { user := none, isLoading := true }

/-- The profile created on first sign-in (`basicUser` in `createUserDocument`):
provider-sourced id and email, display name or the localized default, role
`usuario`, empty phone and location, status `ativo`, `createdAt` = now, and an
empty password that is written but never holds the real password. -/
def basicUser (fu : FirebaseUser) (now : String) : User :=
  { id := fu.uid, email := fu.email,
    name := displayNameOrDefault fu.displayName, role := Role.usuario,
    phone := "", location := "", createdAt := now, status := "ativo",
    password := "" }

/-- First-time profile creation: builds `basicUser` and persists it with
upsert (merge) semantics; a failing `setDoc` is logged and rethrown.
`setDocFail` carries the error the store raises, when it raises one. -/
def createUserDocument (fu : FirebaseUser) (now : String) (store : Store)
    (setDocFail : Option JsError) : Except JsError (User × Store) :=
  match setDocFail with
  | some e => Except.error e
  | none =>
    Except.ok (basicUser fu now, upsert store fu.uid (toRecord (basicUser fu now)))

/-- One provider-pushed session-change notification together with the outcome
of the document-store round trips its handler performs: the principal (none =
signed out), whether `getDoc` fails, whether `setDoc` fails, and the clock. -/
structure AuthEvent where
  fu : Option FirebaseUser
  getDocFail : Option JsError
  setDocFail : Option JsError
  now : String
  deriving Repr

/-- The try/catch body of the `onAuthStateChanged` callback: resolves the
published user (and possibly extends the store). Signed out publishes none; a
`getDoc` error is caught and publishes none; a found document publishes the
spread merge; an absent one creates the profile, a failing creation being
caught and publishing none. -/
def resolveAuthEvent (store : Store) (e : AuthEvent) :
    Option ProfileRecord × Store :=
  match e.fu with
  | none => (none, store)
  | some fu =>
    match e.getDocFail with
    | some _ => (none, store)
    | none =>
      match lookupDoc store fu.uid with
      | some d => (some (spreadUser fu.uid fu.email d), store)
      | none =>
        match createUserDocument fu e.now store e.setDocFail with
        | Except.ok (nu, store2) => (some (toRecord nu), store2)
        | Except.error _ => (none, store)

/-- The whole `onAuthStateChanged` callback: the resolved user is published and
the `finally` block always clears `isLoading`. -/
def handleAuthEvent (p : AuthState × Store) (e : AuthEvent) :
    AuthState × Store :=
  ({ user := (resolveAuthEvent p.2 e).1, isLoading := false },
   (resolveAuthEvent p.2 e).2)

/-- The catch clause of `login`: an error carrying a `code` is replaced by a
plain error holding the localized message; any other error is rethrown. -/
def classifyLoginError : JsError → JsError
  | JsError.coded c _ => JsError.plain (getErrorMessage c)
  | JsError.plain m => JsError.plain m

/-- The try block of `login`: sign in, look the document up, publish the spread
merge when it exists, otherwise create the profile and publish it. The state is
only produced on success; every error escapes to the catch clause. -/
def loginRaw (st : AuthState) (store : Store)
    (signInRes : Except JsError FirebaseUser)
    (getDocFail setDocFail : Option JsError) (now : String) :
    Except JsError (AuthState × Store) :=
  match signInRes with
  | Except.error e => Except.error e
  | Except.ok fu =>
    match getDocFail with
    | some e => Except.error e
    | none =>
      match lookupDoc store fu.uid with
      | some d =>
        Except.ok ({ st with user := some (spreadUser fu.uid fu.email d) }, store)
      | none =>
        match createUserDocument fu now store setDocFail with
        | Except.ok (nu, store2) =>
          Except.ok ({ st with user := some (toRecord nu) }, store2)
        | Except.error e => Except.error e

/-- The explicit `login` operation: the try block with its catch clause. -/
def login (st : AuthState) (store : Store)
    (signInRes : Except JsError FirebaseUser)
    (getDocFail setDocFail : Option JsError) (now : String) :
    Except JsError (AuthState × Store) :=
  match loginRaw st store signInRes getDocFail setDocFail now with
  | Except.ok r => Except.ok r
  | Except.error e => Except.error (classifyLoginError e)

/-- The explicit `logout` operation: provider sign-out, then clear the user; a
provider failure is caught and replaced by the generic logout error, leaving
the state untouched. -/
def logout (st : AuthState) (signOutFail : Option JsError) :
    Except JsError AuthState :=
  match signOutFail with
  | some _ => Except.error (JsError.plain "Erro ao fazer logout. Tente novamente")
  | none => Except.ok { st with user := none }

/-- One interaction with the coordinator: a provider-pushed event, an explicit
login, or an explicit logout, each carrying the outcomes of its external
round trips. -/
inductive Action where
  | authEvent (e : AuthEvent)
  | loginAct (signInRes : Except JsError FirebaseUser)
      (getDocFail setDocFail : Option JsError) (now : String)
  | logoutAct (signOutFail : Option JsError)

/-- The coordinator's reaction to one interaction; a failing login or logout
leaves state and store unchanged (their errors go to the caller). -/
def step (p : AuthState × Store) : Action → AuthState × Store
  | Action.authEvent e => handleAuthEvent p e
  | Action.loginAct sir gdf sdf now =>
    match login p.1 p.2 sir gdf sdf now with
    | Except.ok r => r
    | Except.error _ => p
  | Action.logoutAct sof =>
    match logout p.1 sof with
    | Except.ok st => (st, p.2)
    | Except.error _ => p

/-- A run of the coordinator over a sequence of interactions. -/
def runActs (p : AuthState × Store) : List Action → AuthState × Store
  | [] => p
  | a :: rest => runActs (step p a) rest

/-- The `isLoading` values observed along a sequence of provider-pushed
events: the value before any event, then the value after each one. -/
def loadingTrace (p : AuthState × Store) : List AuthEvent → List Bool
  | [] => [p.1.isLoading]
  | e :: rest => p.1.isLoading :: loadingTrace (handleAuthEvent p e) rest

/-- Fine-grained coordinator state, making the handler's suspension point
explicit: a signed-in event's document round trip is pending until it
completes, while a signed-out event's handler publishes synchronously (its
body has no await before `setUser(null)`). `lastEvent` records the most recent
provider notification, for stating ordering properties. -/
structure FineState where
  st : AuthState
  store : Store
  pending : List FirebaseUser
  lastEvent : Option (Option FirebaseUser)
  deriving Repr

/-- A fine-grained step: either a provider notification arrives, or the
document round trip of the i-th pending signed-in handler completes. -/
inductive FineAct where
  | arrive (fu : Option FirebaseUser)
  | complete (i : Nat) (now : String)

/-- Fine-grained semantics of the `onAuthStateChanged` callback. Arrival of a
signed-out event publishes immediately; arrival of a signed-in event only
starts its resolution. Completion of a pending resolution publishes whatever
it resolved — the source keeps no sequence number and never discards a stale
completion. -/
def fineStep (s : FineState) : FineAct → FineState
  | FineAct.arrive none =>
    { s with st := { user := none, isLoading := false }, lastEvent := some none }
  | FineAct.arrive (some fu) =>
    { s with pending := s.pending ++ [fu], lastEvent := some (some fu) }
  | FineAct.complete i now =>
    match s.pending[i]? with
    | none => s
    | some fu =>
      match lookupDoc s.store fu.uid with
      | some d =>
        { st := { user := some (spreadUser fu.uid fu.email d), isLoading := false },
          store := s.store, pending := s.pending.eraseIdx i,
          lastEvent := s.lastEvent }
      | none =>
        { st := { user := some (toRecord (basicUser fu now)), isLoading := false },
          store := upsert s.store fu.uid (toRecord (basicUser fu now)),
          pending := s.pending.eraseIdx i, lastEvent := s.lastEvent }

/-- A fine-grained run. -/
def runFine (s : FineState) : List FineAct → FineState
  | [] => s
  | a :: rest => runFine (fineStep s a) rest

/-- The ordering guarantee the specification asserts: once every started
resolution has completed, a run whose most recent provider event was
sign-out publishes no user (no stale resolution overwrote it). -/
def staleNeverOverwrites : Prop :=
  ∀ (store : Store) (acts : List FineAct),
    (runFine { st := initState, store := store, pending := [], lastEvent := none }
        acts).pending = [] →
    (runFine { st := initState, store := store, pending := [], lastEvent := none }
        acts).lastEvent = some none →
    (runFine { st := initState, store := store, pending := [], lastEvent := none }
        acts).st.user = none

/-- What the route guard decides for a navigation. -/
inductive RenderDecision where
  | suspend
  | redirectLogin
  | redirectUnauthorized
  | render
  deriving DecidableEq, Repr

/-- Modelled from the spec: the `ProtectedRoute` component's decision
procedure. Its source file is not under src/ — only its call sites in the
route table are — so this follows the spec's words: while loading, render
nothing; if unauthenticated, redirect to login; if a required-role set is
given and the current user's role is not a member, redirect to the
unauthorized view; otherwise render the protected content. -/
def guard (s : SessionState) (requiredRoles : Option (List Role)) :
    RenderDecision :=
  if s.isLoading then RenderDecision.suspend
  else if s.isAuthenticated = false then RenderDecision.redirectLogin
  else
    match requiredRoles with
    | none => RenderDecision.render
    | some rs =>
      match s.user with
      | none => RenderDecision.redirectLogin
      | some u =>
        match u.role with
        | none => RenderDecision.redirectUnauthorized
        | some r =>
          if r ∈ rs then RenderDecision.render
          else RenderDecision.redirectUnauthorized

/-- The merge as the specification words it: provider wins for the identity
fields (id, email), store wins for the profile fields. Stated from the spec's
words, for comparison with `spreadUser`, the merge the source performs. -/
def specMergeProfile (uid email : String) (d : ProfileRecord) : ProfileRecord :=
  { id := some uid, email := some email, name := d.name, role := d.role,
    phone := d.phone, location := d.location, createdAt := d.createdAt,
    status := d.status, password := d.password }

/-- A concrete stored document whose email differs from the provider-sourced
one, for concrete runs. -/
def dStored : ProfileRecord :=
  { id := none, email := some "stored@x.com", name := some "Maria",
    role := some Role.usuario, phone := none, location := none,
    createdAt := none, status := none, password := none }

/-- A concrete principal, for concrete runs. -/
def fuProv : FirebaseUser :=
  { uid := "u1", email := "prov@x.com", displayName := some "Maria" }

/-- Every handled provider event publishes with the loading flag cleared (the
`finally` block of the handler). -/
theorem handleAuthEvent_isLoading (p : AuthState × Store) (e : AuthEvent) :
    (handleAuthEvent p e).1.isLoading = false := rfl

/-- Once the loading flag is down it stays down across any further events. -/
theorem loadingTrace_of_not_loading (evs : List AuthEvent) :
    ∀ (p : AuthState × Store), p.1.isLoading = false →
      loadingTrace p evs = List.replicate (evs.length + 1) false := by
  induction evs with
  | nil => intro p h; simp [loadingTrace, h]
  | cons e rest ih =>
    intro p h
    simp only [loadingTrace, h, List.length_cons, List.replicate_succ]
    rw [ih (handleAuthEvent p e) (handleAuthEvent_isLoading p e),
      List.replicate_succ]

/-- Upserting under a key leaves exactly one record under it when the store
had at most the one being replaced, and never adds a second one. -/
theorem countKey_upsert (s : Store) (k : String) (v : ProfileRecord) :
    countKey (upsert s k v) k = max 1 (countKey s k) := by
  induction s with
  | nil => simp [upsert, countKey]
  | cons hd tl ih =>
    rcases hd with ⟨k0, v0⟩
    by_cases hk : k0 = k
    · subst hk
      simp [upsert, countKey]
    · simp only [upsert, hk, if_false, countKey, List.filter] at ih ⊢
      simp [hk, ih, countKey]

/-- Every record present after an upsert either was already stored or carries
the password of the written record. -/
theorem password_mem_upsert (s : Store) (k : String) (v : ProfileRecord)
    (pw : String) (hv : v.password = some pw) :
    ∀ (k' : String) (r : ProfileRecord), (k', r) ∈ upsert s k v →
      (k', r) ∈ s ∨ r.password = some pw := by
  induction s with
  | nil =>
    intro k' r h
    simp only [upsert, List.mem_singleton, Prod.mk.injEq] at h
    right
    rw [h.2]
    exact hv
  | cons hd tl ih =>
    intro k' r h
    rcases hd with ⟨k0, v0⟩
    by_cases hk : k0 = k
    · subst hk
      simp only [upsert, if_true, List.mem_cons, Prod.mk.injEq] at h
      rcases h with ⟨h1, h2⟩ | h2
      · right
        rw [h2]
        simp [mergeRecord, pick, hv]
      · exact Or.inl (List.mem_cons_of_mem _ h2)
    · simp only [upsert, hk, if_false, List.mem_cons, Prod.mk.injEq] at h
      rcases h with ⟨h1, h2⟩ | h2
      · subst h1
        subst h2
        exact Or.inl (List.mem_cons_self _ _)
      · rcases ih k' r h2 with hmem | hpw
        · exact Or.inl (List.mem_cons_of_mem _ hmem)
        · exact Or.inr hpw

/-- C1: a failing `login` — whether the provider rejects the credentials or
profile resolution fails — leaves the session state and the store unchanged,
and the caller receives an error classified from the provider error code
through the localized message table, unknown codes getting the generic
retry-suggesting message. -/
theorem login_failure_classified_no_mutation :
    ∀ (p : AuthState × Store) (sir : Except JsError FirebaseUser)
      (gdf sdf : Option JsError) (now : String),
      (∀ e, login p.1 p.2 sir gdf sdf now = Except.error e →
        step p (Action.loginAct sir gdf sdf now) = p) ∧
      (∀ c m, sir = Except.error (JsError.coded c m) →
        login p.1 p.2 sir gdf sdf now
          = Except.error (JsError.plain (getErrorMessage c))) ∧
      (∀ fu c m, sir = Except.ok fu → gdf = some (JsError.coded c m) →
        login p.1 p.2 sir gdf sdf now
          = Except.error (JsError.plain (getErrorMessage c))) ∧
      getErrorMessage "auth/invalid-email" = "Email inválido" ∧
      getErrorMessage "auth/user-disabled" = "Usuário desativado" ∧
      getErrorMessage "auth/user-not-found" = "Usuário não encontrado" ∧
      getErrorMessage "auth/wrong-password" = "Senha incorreta" ∧
      getErrorMessage "auth/too-many-requests"
        = "Muitas tentativas. Tente novamente mais tarde" ∧
      getErrorMessage "auth/network-request-failed"
        = "Erro de conexão. Verifique sua internet" ∧
      getErrorMessage "auth/internal-error" = "Erro interno. Tente novamente" ∧
      (∀ c, c ≠ "auth/invalid-email" → c ≠ "auth/user-disabled" →
        c ≠ "auth/user-not-found" → c ≠ "auth/wrong-password" →
        c ≠ "auth/too-many-requests" → c ≠ "auth/network-request-failed" →
        c ≠ "auth/internal-error" →
        getErrorMessage c = "Erro ao fazer login. Tente novamente") := by
  intro p sir gdf sdf now
  refine ⟨?_, ?_, ?_, rfl, rfl, rfl, rfl, rfl, rfl, rfl, ?_⟩
  · intro e h
    simp [step, h]
  · intro c m h
    subst h
    rfl
  · intro fu c m h1 h2
    subst h1
    subst h2
    rfl
  · intro c h1 h2 h3 h4 h5 h6 h7
    simp [getErrorMessage, h1, h2, h3, h4, h5, h6, h7]

/-- Witness of C1 at a concrete failing call: a wrong-password rejection is
classified to the localized message and the coordinator state is unchanged. -/
theorem login_failure_classified_no_mutation_witness :
    login initState []
        (Except.error (JsError.coded "auth/wrong-password" "raw"))
        none none "t"
      = Except.error (JsError.plain "Senha incorreta") ∧
    step (initState, ([] : Store))
        (Action.loginAct
          (Except.error (JsError.coded "auth/wrong-password" "raw")) none none "t")
      = (initState, ([] : Store)) := by
  have h := login_failure_classified_no_mutation (initState, ([] : Store))
    (Except.error (JsError.coded "auth/wrong-password" "raw")) none none "t"
  exact ⟨h.2.1 "auth/wrong-password" "raw" rfl,
    h.1 (JsError.plain "Senha incorreta")
      (h.2.1 "auth/wrong-password" "raw" rfl)⟩

/-- C2: over any sequence of provider-pushed session-change events, the
loading flag is true from initialization until the first event is handled
(whatever that event is and however its resolution goes), is false after it,
and never becomes true again: the observed trace is one true followed by
only falses. -/
theorem isLoading_transitions_once :
    ∀ (store : Store) (evs : List AuthEvent),
      loadingTrace (initState, store) evs
        = true :: List.replicate evs.length false := by
  intro store evs
  cases evs with
  | nil => rfl
  | cons e rest =>
    show (initState, store).1.isLoading
        :: loadingTrace (handleAuthEvent (initState, store) e) rest
      = true :: List.replicate (rest.length + 1) false
    rw [loadingTrace_of_not_loading rest _ (handleAuthEvent_isLoading _ _)]
    rfl

/-- C3: in every published session state, over any interleaving of logins,
logouts and provider-pushed events — in the coarse and in the fine-grained
semantics — the authenticated flag equals the presence of a current user,
because publication derives it from the user. -/
theorem published_isAuthenticated_derived :
    (∀ (store : Store) (acts : List Action),
      (publish (runActs (initState, store) acts).1).isAuthenticated
        = (runActs (initState, store) acts).1.user.isSome) ∧
    (∀ (f : FineState) (facts : List FineAct),
      (publish (runFine f facts).st).isAuthenticated
        = (runFine f facts).st.user.isSome) :=
  ⟨fun _ _ => rfl, fun _ _ => rfl⟩

/-- C4: the route guard is a pure function of the session state and the
optional required-role set: it suspends while loading, redirects to login when
unauthenticated, redirects to the unauthorized view when a required-role set
is given and the current user's role is not a member, and renders otherwise. -/
theorem guard_decision :
    ∀ (s : SessionState) (rr : Option (List Role)),
      (s.isLoading = true → guard s rr = RenderDecision.suspend) ∧
      (s.isLoading = false → s.isAuthenticated = false →
        guard s rr = RenderDecision.redirectLogin) ∧
      (∀ u r rs, s.isLoading = false → s.isAuthenticated = true →
        s.user = some u → u.role = some r → rr = some rs → r ∉ rs →
        guard s rr = RenderDecision.redirectUnauthorized) ∧
      (∀ u r rs, s.isLoading = false → s.isAuthenticated = true →
        s.user = some u → u.role = some r → rr = some rs → r ∈ rs →
        guard s rr = RenderDecision.render) ∧
      (s.isLoading = false → s.isAuthenticated = true → rr = none →
        guard s rr = RenderDecision.render) := by
  intro s rr
  refine ⟨?_, ?_, ?_, ?_, ?_⟩
  · intro h
    simp [guard, h]
  · intro h1 h2
    simp [guard, h1, h2]
  · intro u r rs h1 h2 h3 h4 h5 h6
    subst h5
    simp [guard, h1, h2, h3, h4, h6]
  · intro u r rs h1 h2 h3 h4 h5 h6
    subst h5
    simp [guard, h1, h2, h3, h4, h6]
  · intro h1 h2 h3
    subst h3
    simp [guard, h1, h2]

/-- Witness of C4 at the spec's examples: a usuario-role user hitting an
admin-gated route is redirected to the unauthorized view, a matching role
renders, loading suspends, and unauthenticated redirects to login. -/
theorem guard_decision_witness :
    guard { user := some dStored, isAuthenticated := true, isLoading := false }
        (some [Role.admin])
      = RenderDecision.redirectUnauthorized ∧
    guard { user := some (toRecord (basicUser fuProv "t")),
            isAuthenticated := true, isLoading := false }
        (some [Role.usuario])
      = RenderDecision.render ∧
    guard { user := none, isAuthenticated := false, isLoading := true } none
      = RenderDecision.suspend ∧
    guard { user := none, isAuthenticated := false, isLoading := false } none
      = RenderDecision.redirectLogin := by
  refine ⟨?_, ?_, ?_, ?_⟩
  · exact (guard_decision
      { user := some dStored, isAuthenticated := true, isLoading := false }
      (some [Role.admin])).2.2.1 dStored Role.usuario [Role.admin]
      rfl rfl rfl (by decide) rfl (by decide)
  · exact (guard_decision
      { user := some (toRecord (basicUser fuProv "t")),
        isAuthenticated := true, isLoading := false }
      (some [Role.usuario])).2.2.2.1 (toRecord (basicUser fuProv "t"))
      Role.usuario [Role.usuario] rfl rfl rfl (by decide) rfl (by decide)
  · exact (guard_decision
      { user := none, isAuthenticated := false, isLoading := true } none).1 rfl
  · exact (guard_decision
      { user := none, isAuthenticated := false, isLoading := false } none).2.1
      rfl rfl

/-- C5 counterexample: profile resolution for an existing document does not
give the provider email precedence — the JS spread puts the stored document
last, so its email wins. Concretely, with a stored document carrying a
different email, the handler publishes the stored email, not the provider's,
and the published merge differs from the spec-worded merge. -/
theorem merge_precedence_counterexample :
    (handleAuthEvent (initState, [("u1", dStored)])
        { fu := some fuProv, getDocFail := none, setDocFail := none,
          now := "t" }).1.user
      = some (spreadUser fuProv.uid fuProv.email dStored) ∧
    (spreadUser fuProv.uid fuProv.email dStored).email = some "stored@x.com" ∧
    fuProv.email = "prov@x.com" ∧
    (specMergeProfile fuProv.uid fuProv.email dStored).email
      = some "prov@x.com" ∧
    spreadUser fuProv.uid fuProv.email dStored
      ≠ specMergeProfile fuProv.uid fuProv.email dStored := by
  refine ⟨by decide, by decide, rfl, rfl, by decide⟩

/-- C5 amended: profile resolution for an existing document — on the reactive
path and in `login` alike — publishes the JS-spread merge in which every field
present in the stored document takes precedence, id and email included; the
provider-sourced id and email are used only when the document omits those
fields (in which case the merge agrees with the spec-worded one), and
store-wins holds for the profile fields as claimed. -/
theorem merge_store_wins :
    ∀ (st : AuthState) (store : Store) (fu : FirebaseUser) (now : String)
      (d : ProfileRecord),
      lookupDoc store fu.uid = some d →
      (handleAuthEvent (st, store)
          { fu := some fu, getDocFail := none, setDocFail := none,
            now := now }).1.user
        = some (spreadUser fu.uid fu.email d) ∧
      login st store (Except.ok fu) none none now
        = Except.ok
            ({ st with user := some (spreadUser fu.uid fu.email d) }, store) ∧
      (∀ e', d.email = some e' → (spreadUser fu.uid fu.email d).email = some e') ∧
      (∀ i', d.id = some i' → (spreadUser fu.uid fu.email d).id = some i') ∧
      (d.id = none → d.email = none →
        spreadUser fu.uid fu.email d = specMergeProfile fu.uid fu.email d) ∧
      (spreadUser fu.uid fu.email d).name = d.name ∧
      (spreadUser fu.uid fu.email d).role = d.role ∧
      (spreadUser fu.uid fu.email d).phone = d.phone ∧
      (spreadUser fu.uid fu.email d).location = d.location ∧
      (spreadUser fu.uid fu.email d).status = d.status := by
  intro st store fu now d h
  refine ⟨?_, ?_, ?_, ?_, ?_, rfl, rfl, rfl, rfl, rfl⟩
  · simp [handleAuthEvent, resolveAuthEvent, h]
  · simp [login, loginRaw, h]
  · intro e' he
    simp [spreadUser, pick, he]
  · intro i' hi
    simp [spreadUser, pick, hi]
  · intro hi he
    simp [spreadUser, specMergeProfile, pick, hi, he]

/-- Witness of the amended C5 at a concrete store: the handler publishes the
spread merge of the stored document, whose stored email wins. -/
theorem merge_store_wins_witness :
    (handleAuthEvent (initState, [("u1", dStored)])
        { fu := some fuProv, getDocFail := none, setDocFail := none,
          now := "t" }).1.user
      = some (spreadUser fuProv.uid fuProv.email dStored) ∧
    (spreadUser fuProv.uid fuProv.email dStored).email = some "stored@x.com" :=
  ⟨(merge_store_wins initState [("u1", dStored)] fuProv "t" dStored
      (by decide)).1,
   (merge_store_wins initState [("u1", dStored)] fuProv "t" dStored
      (by decide)).2.2.1 "stored@x.com" rfl⟩

/-- C6 counterexample: the coordinator does not discard stale resolutions. In
the fine-grained semantics, a sign-in event's document round trip that is
still pending when a sign-out event publishes will, on completion, overwrite
the newer unauthenticated state: the run ends with every resolution completed,
the most recent provider event a sign-out, and yet a published user. -/
theorem stale_overwrite_counterexample : ¬ staleNeverOverwrites := by
  intro h
  have hc := h [("u1", dStored)]
    [FineAct.arrive (some fuProv), FineAct.arrive none, FineAct.complete 0 "t"]
    (by decide) (by decide)
  exact absurd hc (by decide)

/-- C6 amended: publications are ordered by resolution completion,
last-writer-wins: a pending resolution that completes always publishes its
result, whatever was published since it began — the coordinator keeps no
sequence number and never discards an out-of-date completion, so a stale
resolution completing after a newer event's publication overwrites it. -/
theorem stale_resolution_last_writer_wins :
    ∀ (s : FineState) (i : Nat) (fu : FirebaseUser) (d : ProfileRecord)
      (now : String),
      s.pending[i]? = some fu →
      lookupDoc s.store fu.uid = some d →
      (fineStep s (FineAct.complete i now)).st.user
        = some (spreadUser fu.uid fu.email d) ∧
      (fineStep s (FineAct.complete i now)).lastEvent = s.lastEvent := by
  intro s i fu d now h1 h2
  constructor
  · simp [fineStep, h1, h2]
  · simp [fineStep, h1, h2]

/-- Witness of the amended C6: completing the pending resolution of the
concrete stale run publishes the resolved profile even though the latest
provider event was a sign-out. -/
theorem stale_resolution_last_writer_wins_witness :
    (fineStep
        { st := { user := none, isLoading := false },
          store := [("u1", dStored)], pending := [fuProv],
          lastEvent := some none }
        (FineAct.complete 0 "t")).st.user
      = some (spreadUser fuProv.uid fuProv.email dStored) :=
  (stale_resolution_last_writer_wins
    { st := { user := none, isLoading := false },
      store := [("u1", dStored)], pending := [fuProv],
      lastEvent := some none }
    0 fuProv dStored "t" (by decide) (by decide)).1

/-- C7: a first-time sign-in (no stored document under the principal's id)
creates and persists — with upsert semantics, a duplicate write under the same
id leaving exactly one record — the profile with provider-sourced id and
email, display name or the localized default, role usuario, empty phone and
location, status ativo and the creation time; the handler then publishes it
with the authenticated flag set. -/
theorem first_signin_creates_profile :
    ∀ (st : AuthState) (store : Store) (fu : FirebaseUser) (now : String),
      (∀ v v', countKey store fu.uid ≤ 1 →
        countKey (upsert (upsert store fu.uid v) fu.uid v') fu.uid = 1) ∧
      (lookupDoc store fu.uid = none →
        handleAuthEvent (st, store)
            { fu := some fu, getDocFail := none, setDocFail := none,
              now := now }
          = ({ user := some (toRecord (basicUser fu now)), isLoading := false },
             upsert store fu.uid (toRecord (basicUser fu now))) ∧
        (publish (handleAuthEvent (st, store)
            { fu := some fu, getDocFail := none, setDocFail := none,
              now := now }).1).isAuthenticated = true) ∧
      basicUser fu now
        = { id := fu.uid, email := fu.email,
            name := displayNameOrDefault fu.displayName, role := Role.usuario,
            phone := "", location := "", createdAt := now, status := "ativo",
            password := "" } ∧
      createUserDocument fu now store none
        = Except.ok
            (basicUser fu now, upsert store fu.uid (toRecord (basicUser fu now))) := by
  intro st store fu now
  refine ⟨?_, ?_, rfl, rfl⟩
  · intro v v' hle
    rw [countKey_upsert, countKey_upsert]
    omega
  · intro h
    constructor
    · simp [handleAuthEvent, resolveAuthEvent, createUserDocument, h]
    · simp [handleAuthEvent, resolveAuthEvent, createUserDocument, h, publish]

/-- Witness of C7: the concrete first sign-in of principal u1 against an empty
store creates the ativo/usuario profile, a duplicate upsert leaves one record,
and the published state is authenticated. -/
theorem first_signin_creates_profile_witness :
    countKey
        (upsert (upsert [] fuProv.uid (toRecord (basicUser fuProv "t")))
          fuProv.uid (toRecord (basicUser fuProv "t"))) fuProv.uid = 1 ∧
    (publish (handleAuthEvent (initState, ([] : Store))
        { fu := some fuProv, getDocFail := none, setDocFail := none,
          now := "t" }).1).isAuthenticated = true :=
  ⟨(first_signin_creates_profile initState [] fuProv "t").1
      (toRecord (basicUser fuProv "t")) (toRecord (basicUser fuProv "t"))
      (by decide),
   ((first_signin_creates_profile initState [] fuProv "t").2.1 (by decide)).2⟩

/-- C8: `logout` with a succeeding provider sign-out clears the current user
and the new published state is unauthenticated; with a failing sign-out it
returns the generic logout error and leaves state and store entirely
untouched — never a silent no-op. -/
theorem logout_clears_or_reports :
    ∀ (p : AuthState × Store) (e : JsError),
      logout p.1 none = Except.ok { p.1 with user := none } ∧
      step p (Action.logoutAct none) = ({ p.1 with user := none }, p.2) ∧
      (publish { p.1 with user := none }).isAuthenticated = false ∧
      logout p.1 (some e)
        = Except.error (JsError.plain "Erro ao fazer logout. Tente novamente") ∧
      step p (Action.logoutAct (some e)) = p := by
  intro p e
  exact ⟨rfl, rfl, rfl, rfl, rfl⟩

/-- C9: when profile resolution errors on the reactive path — a failing
document read, or a failing creation for a missing document — the handler
publishes the unauthenticated state (user cleared) and still completes the
loading transition, so the coordinator never hangs loading; the handler
returns no error to any caller. -/
theorem reactive_error_falls_back :
    ∀ (st : AuthState) (store : Store) (fu : FirebaseUser) (e : JsError)
      (now : String),
      handleAuthEvent (st, store)
          { fu := some fu, getDocFail := some e, setDocFail := none, now := now }
        = ({ user := none, isLoading := false }, store) ∧
      (lookupDoc store fu.uid = none →
        handleAuthEvent (st, store)
            { fu := some fu, getDocFail := none, setDocFail := some e,
              now := now }
          = ({ user := none, isLoading := false }, store)) ∧
      (publish { user := none, isLoading := false }).isAuthenticated = false := by
  intro st store fu e now
  refine ⟨rfl, ?_, rfl⟩
  intro h
  simp [handleAuthEvent, resolveAuthEvent, createUserDocument, h]

/-- Witness of C9: concrete failing reads and writes for principal u1 against
an empty store publish the unauthenticated, non-loading state. -/
theorem reactive_error_falls_back_witness :
    handleAuthEvent (initState, ([] : Store))
        { fu := some fuProv, getDocFail := some (JsError.coded "unavailable" "x"),
          setDocFail := none, now := "t" }
      = ({ user := none, isLoading := false }, ([] : Store)) ∧
    handleAuthEvent (initState, ([] : Store))
        { fu := some fuProv, getDocFail := none,
          setDocFail := some (JsError.coded "permission-denied" "x"), now := "t" }
      = ({ user := none, isLoading := false }, ([] : Store)) :=
  ⟨(reactive_error_falls_back initState [] fuProv
      (JsError.coded "unavailable" "x") "t").1,
   (reactive_error_falls_back initState [] fuProv
      (JsError.coded "permission-denied" "x") "t").2.1 (by decide)⟩

/-- C10: the persisted profile always carries a password field holding the
empty string — `basicUser` writes an empty password, and every record a
coordinator operation (profile creation, login, the reactive handler, logout)
leaves in the store either predates the operation or has the empty-string
password, so the real password is never written to the document store. -/
theorem password_never_persisted :
    ∀ (fu : FirebaseUser) (now : String),
      (basicUser fu now).password = "" ∧
      (∀ (store : Store) (sdf : Option JsError) (u : User) (store2 : Store),
        createUserDocument fu now store sdf = Except.ok (u, store2) →
        u.password = "" ∧
        ∀ k r, (k, r) ∈ store2 → (k, r) ∈ store ∨ r.password = some "") ∧
      (∀ (st : AuthState) (store : Store) (sir : Except JsError FirebaseUser)
         (gdf sdf : Option JsError) (st' : AuthState) (store2 : Store),
        login st store sir gdf sdf now = Except.ok (st', store2) →
        ∀ k r, (k, r) ∈ store2 → (k, r) ∈ store ∨ r.password = some "") ∧
      (∀ (p : AuthState × Store) (e : AuthEvent) (k : String)
         (r : ProfileRecord),
        (k, r) ∈ (handleAuthEvent p e).2 → (k, r) ∈ p.2 ∨ r.password = some "") ∧
      (∀ (p : AuthState × Store) (sof : Option JsError),
        (step p (Action.logoutAct sof)).2 = p.2) := by
  intro fu now
  refine ⟨rfl, ?_, ?_, ?_, ?_⟩
  · intro store sdf u store2 h
    cases sdf with
    | some e => simp [createUserDocument] at h
    | none =>
      simp only [createUserDocument, Except.ok.injEq, Prod.mk.injEq] at h
      refine ⟨by rw [← h.1]; rfl, ?_⟩
      intro k r hmem
      rw [← h.2] at hmem
      exact password_mem_upsert store fu.uid (toRecord (basicUser fu now)) ""
        rfl k r hmem
  · intro st store sir gdf sdf st' store2 h
    cases sir with
    | error e => simp [login, loginRaw] at h
    | ok fu' =>
      cases gdf with
      | some e => simp [login, loginRaw] at h
      | none =>
        cases hl : lookupDoc store fu'.uid with
        | some d =>
          simp only [login, loginRaw, hl, Except.ok.injEq, Prod.mk.injEq] at h
          intro k r hmem
          rw [← h.2] at hmem
          exact Or.inl hmem
        | none =>
          cases sdf with
          | some e => simp [login, loginRaw, hl, createUserDocument] at h
          | none =>
            simp only [login, loginRaw, hl, createUserDocument,
              Except.ok.injEq, Prod.mk.injEq] at h
            intro k r hmem
            rw [← h.2] at hmem
            exact password_mem_upsert store fu'.uid
              (toRecord (basicUser fu' now)) "" rfl k r hmem
  · intro p e k r hmem
    rcases e with ⟨efu, egdf, esdf, enow⟩
    cases efu with
    | none => exact Or.inl hmem
    | some fu' =>
      cases egdf with
      | some err => exact Or.inl hmem
      | none =>
        cases hl : lookupDoc p.2 fu'.uid with
        | some d =>
          simp only [handleAuthEvent, resolveAuthEvent, hl] at hmem
          exact Or.inl hmem
        | none =>
          cases esdf with
          | some err =>
            simp only [handleAuthEvent, resolveAuthEvent, hl,
              createUserDocument] at hmem
            exact Or.inl hmem
          | none =>
            simp only [handleAuthEvent, resolveAuthEvent, hl,
              createUserDocument] at hmem
            exact password_mem_upsert p.2 fu'.uid
              (toRecord (basicUser fu' enow)) "" rfl k r hmem
  · intro p sof
    cases sof with
    | some e => rfl
    | none => rfl

/-- Witness of C10: the record the concrete first sign-in persists carries the
empty-string password. -/
theorem password_never_persisted_witness :
    ("u1", toRecord (basicUser fuProv "t")) ∈ ([] : Store) ∨
    (toRecord (basicUser fuProv "t")).password = some "" :=
  ((password_never_persisted fuProv "t").2.1 [] none (basicUser fuProv "t")
      (upsert [] fuProv.uid (toRecord (basicUser fuProv "t"))) rfl).2
    "u1" (toRecord (basicUser fuProv "t")) (by decide)

end EventoCatolico
